import Mathlib

/-!
Verification of the error-handling core of bmputil: the vendored rusb
transport-error classifier (src/rusb/src/error.rs) and the application
error taxonomy with its logging helper (src/src/error.rs).

Backtraces are modelled by an opaque token: the code only ever captures
and stores one, never inspects it, so any type with decidable equality
is a faithful model of its role in this core.

External error types (std::io::Error, anyhow::Error, dfu_libusb::Error)
are opaque to this core; the only capability this core uses of them is
their display text, so each is modelled as a record holding that text.
-/

namespace Bmputil

/-- Opaque model of std::backtrace::Backtrace: the code stores backtraces
but never inspects them, so an abstract token suffices. -/
abbrev Backtrace := Nat

/-- Raw libusb status-code constants, from the external crate
libusb1_sys::constants, which re-exports the fixed libusb C ABI values
(libusb.h enum libusb_error). These values are externally defined and
stable across all libusb versions. -/
def LIBUSB_ERROR_IO : Int := -1

/-- Constant LIBUSB_ERROR_INVALID_PARAM of the libusb ABI. -/
def LIBUSB_ERROR_INVALID_PARAM : Int := -2

/-- Constant LIBUSB_ERROR_ACCESS of the libusb ABI (access denied). -/
def LIBUSB_ERROR_ACCESS : Int := -3

/-- Constant LIBUSB_ERROR_NO_DEVICE of the libusb ABI. -/
def LIBUSB_ERROR_NO_DEVICE : Int := -4

/-- Constant LIBUSB_ERROR_NOT_FOUND of the libusb ABI. -/
def LIBUSB_ERROR_NOT_FOUND : Int := -5

/-- Constant LIBUSB_ERROR_BUSY of the libusb ABI. -/
def LIBUSB_ERROR_BUSY : Int := -6

/-- Constant LIBUSB_ERROR_TIMEOUT of the libusb ABI. -/
def LIBUSB_ERROR_TIMEOUT : Int := -7

/-- Constant LIBUSB_ERROR_OVERFLOW of the libusb ABI. -/
def LIBUSB_ERROR_OVERFLOW : Int := -8

/-- Constant LIBUSB_ERROR_PIPE of the libusb ABI. -/
def LIBUSB_ERROR_PIPE : Int := -9

/-- Constant LIBUSB_ERROR_INTERRUPTED of the libusb ABI. -/
def LIBUSB_ERROR_INTERRUPTED : Int := -10

/-- Constant LIBUSB_ERROR_NO_MEM of the libusb ABI. -/
def LIBUSB_ERROR_NO_MEM : Int := -11

/-- Constant LIBUSB_ERROR_NOT_SUPPORTED of the libusb ABI. -/
def LIBUSB_ERROR_NOT_SUPPORTED : Int := -12

/-- Constant LIBUSB_ERROR_OTHER of the libusb ABI. -/
def LIBUSB_ERROR_OTHER : Int := -99

/-- Enum ErrorKind of src/rusb/src/error.rs (lines 13-55): kinds of
transport errors. -/
inductive ErrorKind where
  | Io
  | InvalidParam
  | Access
  | NoDevice
  | NotFound
  | Busy
  | Timeout
  | Overflow
  | Pipe
  | Interrupted
  | NoMem
  | NotSupported
  | BadDescriptor
  | Other
  deriving DecidableEq, Repr

/-- Struct Error of src/rusb/src/error.rs (lines 77-80): a transport
error bundling a kind with the backtrace captured at construction. -/
structure Error where
  kind : ErrorKind
  backtrace : Backtrace
  deriving DecidableEq, Repr

/-- Function Error::new of src/rusb/src/error.rs (lines 84-89). -/
def Error.new (kind : ErrorKind) (backtrace : Backtrace) : Error :=
  ⟨kind, backtrace⟩

/-- Method ErrorKind::error_from of src/rusb/src/error.rs (lines 62-64). -/
def ErrorKind.error_from (self : ErrorKind) (backtrace : Backtrace) : Error :=
  Error.new self backtrace

/-- Display implementation for Error, src/rusb/src/error.rs lines 92-111:
one fixed string per kind, reading only self.kind. -/
def Error.display (self : Error) : String :=
  match self.kind with
  | ErrorKind.Io => "Input/Output Error"
  | ErrorKind.InvalidParam => "Invalid parameter"
  | ErrorKind.Access => "Access denied (insufficient permissions)"
  | ErrorKind.NoDevice => "No such device (it may have been disconnected)"
  | ErrorKind.NotFound => "Entity not found"
  | ErrorKind.Busy => "Resource busy"
  | ErrorKind.Timeout => "Operation timed out"
  | ErrorKind.Overflow => "Overflow"
  | ErrorKind.Pipe => "Pipe error"
  | ErrorKind.Interrupted => "System call interrupted (perhaps due to signal)"
  | ErrorKind.NoMem => "Insufficient memory"
  | ErrorKind.NotSupported => "Operation not supported or unimplemented on this platform"
  | ErrorKind.BadDescriptor => "Malformed descriptor"
  | ErrorKind.Other => "Other error"

/-- The match expression of from_libusb, src/rusb/src/error.rs lines
117-130: the final arm of the Rust match is the or-pattern
LIBUSB_ERROR_OTHER | _, which maps every remaining code to Other. -/
def from_libusb_kind (err : Int) : ErrorKind :=
  if err = LIBUSB_ERROR_IO then ErrorKind.Io
  else if err = LIBUSB_ERROR_INVALID_PARAM then ErrorKind.InvalidParam
  else if err = LIBUSB_ERROR_ACCESS then ErrorKind.Access
  else if err = LIBUSB_ERROR_NO_DEVICE then ErrorKind.NoDevice
  else if err = LIBUSB_ERROR_NOT_FOUND then ErrorKind.NotFound
  else if err = LIBUSB_ERROR_BUSY then ErrorKind.Busy
  else if err = LIBUSB_ERROR_TIMEOUT then ErrorKind.Timeout
  else if err = LIBUSB_ERROR_OVERFLOW then ErrorKind.Overflow
  else if err = LIBUSB_ERROR_PIPE then ErrorKind.Pipe
  else if err = LIBUSB_ERROR_INTERRUPTED then ErrorKind.Interrupted
  else if err = LIBUSB_ERROR_NO_MEM then ErrorKind.NoMem
  else if err = LIBUSB_ERROR_NOT_SUPPORTED then ErrorKind.NotSupported
  else ErrorKind.Other

/-- Function from_libusb of src/rusb/src/error.rs (lines 116-132): match
the raw code, then attach the backtrace captured at invocation time (the
capture effect is modelled by the explicit bt argument). -/
def from_libusb (err : Int) (bt : Backtrace) : Error :=
  (from_libusb_kind err).error_from bt

/-- The twelve known libusb constants that from_libusb maps to a
dedicated non-Other kind. -/
def knownCodes : List Int :=
  [ LIBUSB_ERROR_IO, LIBUSB_ERROR_INVALID_PARAM, LIBUSB_ERROR_ACCESS,
   LIBUSB_ERROR_NO_DEVICE, LIBUSB_ERROR_NOT_FOUND, LIBUSB_ERROR_BUSY,
   LIBUSB_ERROR_TIMEOUT, LIBUSB_ERROR_OVERFLOW, LIBUSB_ERROR_PIPE,
   LIBUSB_ERROR_INTERRUPTED, LIBUSB_ERROR_NO_MEM, LIBUSB_ERROR_NOT_SUPPORTED]

/-- All fourteen ErrorKind variants. -/
def allKinds : List ErrorKind :=
  [ErrorKind.Io, ErrorKind.InvalidParam, ErrorKind.Access, ErrorKind.NoDevice,
   ErrorKind.NotFound, ErrorKind.Busy, ErrorKind.Timeout, ErrorKind.Overflow,
   ErrorKind.Pipe, ErrorKind.Interrupted, ErrorKind.NoMem, ErrorKind.NotSupported,
   ErrorKind.BadDescriptor, ErrorKind.Other]

/-- Opaque model of std::io::Error: this core only uses its display text. -/
structure IoError where
  display : String
  deriving DecidableEq, Repr

/-- Opaque model of anyhow::Error: this core only uses its display text. -/
structure AnyhowError where
  display : String
  deriving DecidableEq, Repr

/-- Opaque model of dfu_libusb::Error: this core only uses its display text. -/
structure DfuError where
  display : String
  deriving DecidableEq, Repr

/-- Enum BmputilError of src/src/error.rs (lines 5-83). Field order and
payloads follow the Rust declaration; rusb::Error is the transport Error
above. -/
inductive BmputilError where
  | FirmwareFileIOError (source : IoError) (filename : String)
  | TooManyDevicesError
  | DeviceNotFoundError
  | PermissionsError (source : Error) (operation : String) (context : String)
  | DeviceDisconnectDuringOperationError (source : Error) (operation : String) (context : String)
  | DeviceReconfigureError (source : Option Error)
  | DeviceRebootError (source : Option Error)
  | DeviceSeemsInvalidError (source : Option AnyhowError) (invalid_thing : String)
  | LibusbError (source : Error)
  | DfuLibusbError (source : DfuError)
  deriving DecidableEq, Repr

/-- The possible causal sources a BmputilError can report, one injection
per wrapped external error type. -/
inductive SourceError where
  | io (e : IoError)
  | usb (e : Error)
  | anyhow (e : AnyhowError)
  | dfu (e : DfuError)
  deriving DecidableEq, Repr

/-- Display text of a reported source: each wrapped error displays as
itself. -/
def SourceError.display : SourceError → String
  | SourceError.io e => e.display
  | SourceError.usb e => e.display
  | SourceError.anyhow e => e.display
  | SourceError.dfu e => e.display

/-- The std::error::Error::source implementation generated by thiserror
for BmputilError from the #[source] and #[from] attributes of
src/src/error.rs: fields of type Option are flattened, variants with no
source field report none. -/
def BmputilError.source : BmputilError → Option SourceError
  | BmputilError.FirmwareFileIOError s _ => some (SourceError.io s)
  | BmputilError.TooManyDevicesError => none
  | BmputilError.DeviceNotFoundError => none
  | BmputilError.PermissionsError s _ _ => some (SourceError.usb s)
  | BmputilError.DeviceDisconnectDuringOperationError s _ _ => some (SourceError.usb s)
  | BmputilError.DeviceReconfigureError s => s.map SourceError.usb
  | BmputilError.DeviceRebootError s => s.map SourceError.usb
  | BmputilError.DeviceSeemsInvalidError s _ => s.map SourceError.anyhow
  | BmputilError.LibusbError s => some (SourceError.usb s)
  | BmputilError.DfuLibusbError s => some (SourceError.dfu s)

/-- The std::error::Error::source implementation of the transport Error,
src/rusb/src/error.rs line 113: an empty impl block, so the trait default
applies and source() always returns None. -/
def Error.source (_ : Error) : Option SourceError :=
  none

/-- The Display implementation generated by thiserror for BmputilError
from the #[error(...)] templates of src/src/error.rs. In the
DeviceSeemsInvalidError template the Rust string-literal continuation
backslash swallows the newline and following indentation, so
"configuration." is directly followed by "This". -/
def BmputilError.display : BmputilError → String
  | BmputilError.FirmwareFileIOError _ filename =>
      "Failed to read firmware file " ++ filename
  | BmputilError.TooManyDevicesError =>
      "More than one Blackmagic Probe device was found"
  | BmputilError.DeviceNotFoundError =>
      "No connected Blackmagic Probe device was found! Check connection?"
  | BmputilError.PermissionsError _ operation context =>
      "Access denied when attempting to " ++ operation ++ " to " ++ context
  | BmputilError.DeviceDisconnectDuringOperationError _ operation context =>
      "Blackmagic Probe device found disconnected when attempting to " ++ operation ++ " to " ++ context
  | BmputilError.DeviceReconfigureError _ =>
      "Blackmagic Probe device did not re-enumerate after requesting to switch to DFU mode"
  | BmputilError.DeviceRebootError _ =>
      "Blackmagic Probe device did not re-enumerate after flashing firmware; firmware may be invalid?"
  | BmputilError.DeviceSeemsInvalidError _ invalid_thing =>
      "Blackmagic Probe device returned bad data (" ++ invalid_thing ++
        ") during configuration.This generally shouldn\x27t be possible. Maybe cable is bad, or OS is messing with things?"
  | BmputilError.LibusbError _ =>
      "Other/unhandled libusb error (please report this so we can add better handling!)"
  | BmputilError.DfuLibusbError _ =>
      "Other/unhandled dfu_libusb error (please report this so we can add better error handling!"

/-- The From<rusb::Error> conversion generated by the #[from] attribute
on the LibusbError variant, src/src/error.rs lines 78-79. -/
def BmputilError.fromRusbError (e : Error) : BmputilError :=
  BmputilError.LibusbError e

/-- The From conversion generated by the #[from] attribute on the
DfuLibusbError variant, src/src/error.rs lines 81-82. -/
def BmputilError.fromDfuError (e : DfuError) : BmputilError :=
  BmputilError.DfuLibusbError e

/-- Severities of the log crate used by log::error!. -/
inductive LogLevel where
  | error
  | warn
  | info
  | debug
  | trace
  deriving DecidableEq, Repr

/-- One emitted log line: a severity and the formatted text. -/
structure LogLine where
  level : LogLevel
  text : String
  deriving DecidableEq, Repr

/-- Macro log_and_return of src/src/error.rs (lines 86-94): bind the
error, emit exactly one log line at error severity holding its display
text, then make the enclosing function return Err of that same value.
The log side effect is modelled by the emitted-lines component; the
early return by the Except value. -/
def log_and_return (err : BmputilError) : List LogLine × Except BmputilError Unit :=
  ([⟨LogLevel.error, err.display⟩], Except.error err)

lemma from_libusb_kind_eq (err : Int) (bt : Backtrace) :
    (from_libusb err bt).kind = from_libusb_kind err := rfl

lemma from_libusb_kind_of_unknown (n : Int) (h : n ∉ knownCodes) :
    from_libusb_kind n = ErrorKind.Other := by
  simp only [knownCodes, List.mem_cons, List.not_mem_nil, or_false, not_or] at h
  obtain ⟨h1, h2, h3, h4, h5, h6, h7, h8, h9, h10, h11, h12⟩ := h
  simp only [from_libusb_kind, if_neg h1, if_neg h2, if_neg h3, if_neg h4,
    if_neg h5, if_neg h6, if_neg h7, if_neg h8, if_neg h9, if_neg h10,
    if_neg h11, if_neg h12]

lemma from_libusb_kind_mem_allKinds (n : Int) :
    from_libusb_kind n ∈ allKinds := by
  by_cases h : n ∈ knownCodes
  · fin_cases h <;> decide
  · rw [from_libusb_kind_of_unknown n h]
    decide

lemma from_libusb_kind_ne_bad_descriptor (n : Int) :
    from_libusb_kind n ≠ ErrorKind.BadDescriptor := by
  by_cases h : n ∈ knownCodes
  · fin_cases h <;> decide
  · rw [from_libusb_kind_of_unknown n h]
    decide

/-- C1: for every raw code in the known libusb constant set, from_libusb
returns a transport Error whose kind is the documented mapping, and for
every code outside that set it returns kind Other. -/
theorem from_libusb_classification :
    (∀ bt : Backtrace,
      (from_libusb LIBUSB_ERROR_IO bt).kind = ErrorKind.Io ∧
      (from_libusb LIBUSB_ERROR_INVALID_PARAM bt).kind = ErrorKind.InvalidParam ∧
      (from_libusb LIBUSB_ERROR_ACCESS bt).kind = ErrorKind.Access ∧
      (from_libusb LIBUSB_ERROR_NO_DEVICE bt).kind = ErrorKind.NoDevice ∧
      (from_libusb LIBUSB_ERROR_NOT_FOUND bt).kind = ErrorKind.NotFound ∧
      (from_libusb LIBUSB_ERROR_BUSY bt).kind = ErrorKind.Busy ∧
      (from_libusb LIBUSB_ERROR_TIMEOUT bt).kind = ErrorKind.Timeout ∧
      (from_libusb LIBUSB_ERROR_OVERFLOW bt).kind = ErrorKind.Overflow ∧
      (from_libusb LIBUSB_ERROR_PIPE bt).kind = ErrorKind.Pipe ∧
      (from_libusb LIBUSB_ERROR_INTERRUPTED bt).kind = ErrorKind.Interrupted ∧
      (from_libusb LIBUSB_ERROR_NO_MEM bt).kind = ErrorKind.NoMem ∧
      (from_libusb LIBUSB_ERROR_NOT_SUPPORTED bt).kind = ErrorKind.NotSupported) ∧
    (∀ (n : Int) (bt : Backtrace), n ∉ knownCodes →
      (from_libusb n bt).kind = ErrorKind.Other) := by
  constructor
  · intro bt
    simp only [from_libusb_kind_eq]
    decide
  · intro n bt h
    rw [from_libusb_kind_eq]
    exact from_libusb_kind_of_unknown n h

/-- Witness for C1: the hypothesis-carrying conjunct applied at the
concrete unknown code -9999. -/
theorem from_libusb_classification_witness :
    (from_libusb (-9999) 0).kind = ErrorKind.Other :=
  from_libusb_classification.2 (-9999) 0 (by decide)

/-- C2 counterexample: -5 is LIBUSB_ERROR_NOT_FOUND in the libusb ABI,
not the access-denied constant; from_libusb classifies it as NotFound, so
its kind is not Access and its display text is "Entity not found". -/
theorem from_libusb_neg5_is_not_found :
    (from_libusb (-5) 0).kind = ErrorKind.NotFound ∧
    (from_libusb (-5) 0).kind ≠ ErrorKind.Access ∧
    (from_libusb (-5) 0).display = "Entity not found" := by
  refine ⟨rfl, by decide, rfl⟩

/-- C2 (amended): calling from_libusb with raw code -3, the access-denied
constant LIBUSB_ERROR_ACCESS, yields kind Access with display text
"Access denied (insufficient permissions)"; wrapping that error in
PermissionsError with operation "send a control transfer" and context
"read firmware version" yields the display text "Access denied when
attempting to send a control transfer to read firmware version". -/
theorem access_denied_scenario :
    LIBUSB_ERROR_ACCESS = -3 ∧
    (from_libusb LIBUSB_ERROR_ACCESS 0).kind = ErrorKind.Access ∧
    (from_libusb LIBUSB_ERROR_ACCESS 0).display = "Access denied (insufficient permissions)" ∧
    (BmputilError.PermissionsError (from_libusb LIBUSB_ERROR_ACCESS 0)
        "send a control transfer" "read firmware version").display =
      "Access denied when attempting to send a control transfer to read firmware version" := by
  refine ⟨rfl, rfl, rfl, rfl⟩

/-- C3: from_libusb is total on the i32 status-code space: for every
input in i32 range (the extremes included) it produces the Error built
from the match result and the backtrace, and that result kind is one of
the fourteen ErrorKind variants, so no branch is missing. -/
theorem from_libusb_total (n : Int) (h1 : -(2 ^ 31) ≤ n) (h2 : n < 2 ^ 31)
    (bt : Backtrace) :
    from_libusb n bt = Error.new (from_libusb_kind n) bt ∧
    from_libusb_kind n ∈ allKinds := by
  exact ⟨rfl, from_libusb_kind_mem_allKinds n⟩

/-- Witness for C3: totality applied at i32::MIN and i32::MAX. -/
theorem from_libusb_total_witness :
    (from_libusb (-2147483648) 0 = Error.new (from_libusb_kind (-2147483648)) 0 ∧
      from_libusb_kind (-2147483648) ∈ allKinds) ∧
    (from_libusb 2147483647 0 = Error.new (from_libusb_kind 2147483647) 0 ∧
      from_libusb_kind 2147483647 ∈ allKinds) :=
  ⟨from_libusb_total (-2147483648) (by decide) (by decide) 0,
   from_libusb_total 2147483647 (by decide) (by decide) 0⟩

/-- C4: the display text of a transport Error is a fixed non-empty string
determined by the kind alone: two Errors with equal kind but different
backtraces display identically, and no kind displays as the empty
string. -/
theorem error_display_fixed (k : ErrorKind) (b1 b2 : Backtrace) :
    (Error.new k b1).display = (Error.new k b2).display ∧
    (Error.new k b1).display ≠ "" := by
  refine ⟨rfl, ?_⟩
  have h : (Error.new k b1).display = (Error.new k 0).display := rfl
  rw [h]
  cases k <;> decide

/-- C5: a transport Error is always a root cause: its reported
error-chain source is None for every value, however constructed. -/
theorem error_source_none (e : Error) : e.source = none := rfl

/-- C6: every BmputilError case with a present source reports exactly
that source as its cause, and that reported source displays as the
wrapped error itself; cases built with source None, and the two cases
without a source field, report no cause. -/
theorem bmputil_source_contract (sio : IoError) (fn : String) (su : Error)
    (op ctx : String) (sa : AnyhowError) (sd : DfuError) (it : String) :
    (BmputilError.FirmwareFileIOError sio fn).source = some (SourceError.io sio) ∧
    BmputilError.TooManyDevicesError.source = none ∧
    BmputilError.DeviceNotFoundError.source = none ∧
    (BmputilError.PermissionsError su op ctx).source = some (SourceError.usb su) ∧
    (BmputilError.DeviceDisconnectDuringOperationError su op ctx).source = some (SourceError.usb su) ∧
    (BmputilError.DeviceReconfigureError (some su)).source = some (SourceError.usb su) ∧
    (BmputilError.DeviceReconfigureError none).source = none ∧
    (BmputilError.DeviceRebootError (some su)).source = some (SourceError.usb su) ∧
    (BmputilError.DeviceRebootError none).source = none ∧
    (BmputilError.DeviceSeemsInvalidError (some sa) it).source = some (SourceError.anyhow sa) ∧
    (BmputilError.DeviceSeemsInvalidError none it).source = none ∧
    (BmputilError.LibusbError su).source = some (SourceError.usb su) ∧
    (BmputilError.DfuLibusbError sd).source = some (SourceError.dfu sd) ∧
    (SourceError.io sio).display = sio.display ∧
    (SourceError.usb su).display = su.display ∧
    (SourceError.anyhow sa).display = sa.display ∧
    (SourceError.dfu sd).display = sd.display :=
  ⟨rfl, rfl, rfl, rfl, rfl, rfl, rfl, rfl, rfl, rfl, rfl, rfl, rfl, rfl, rfl,
   rfl, rfl⟩

/-- C7: the implicit From conversion of a transport Error into a
BmputilError yields exactly the LibusbError case wrapping that very
value, no field altered or lost. -/
theorem from_rusb_is_libusb_case (e : Error) :
    BmputilError.fromRusbError e = BmputilError.LibusbError e := rfl

/-- C8: log_and_return on a constructed DeviceNotFoundError emits exactly
one log line, at error severity, whose text is the display text of the
case, and makes the enclosing function fail with that same error value. -/
theorem log_and_return_device_not_found :
    log_and_return BmputilError.DeviceNotFoundError =
      ([⟨LogLevel.error, "No connected Blackmagic Probe device was found! Check connection?"⟩],
       Except.error BmputilError.DeviceNotFoundError) ∧
    BmputilError.DeviceNotFoundError.display =
      "No connected Blackmagic Probe device was found! Check connection?" :=
  ⟨rfl, rfl⟩

/-- C9: no raw i32 status code classifies to BadDescriptor: the variant
exists in ErrorKind but is unreachable through from_libusb. -/
theorem from_libusb_never_bad_descriptor (n : Int) (h1 : -(2 ^ 31) ≤ n)
    (h2 : n < 2 ^ 31) (bt : Backtrace) :
    (from_libusb n bt).kind ≠ ErrorKind.BadDescriptor := by
  rw [from_libusb_kind_eq]
  exact from_libusb_kind_ne_bad_descriptor n

/-- Witness for C9: applied at the concrete in-range code -13. -/
theorem from_libusb_never_bad_descriptor_witness :
    (from_libusb (-13) 0).kind ≠ ErrorKind.BadDescriptor :=
  from_libusb_never_bad_descriptor (-13) (by decide) (by decide) 0

/-- C10: the display text of every BmputilError case depends only on the
case tag and its string fields, never on the wrapped source: two values
of the same case with equal string fields but different sources display
identically. -/
theorem bmputil_display_ignores_source (s1 s2 : IoError) (fn : String)
    (u1 u2 : Error) (op ctx : String) (o1 o2 : Option Error)
    (a1 a2 : Option AnyhowError) (it : String) (d1 d2 : DfuError) :
    (BmputilError.FirmwareFileIOError s1 fn).display =
      (BmputilError.FirmwareFileIOError s2 fn).display ∧
    (BmputilError.PermissionsError u1 op ctx).display =
      (BmputilError.PermissionsError u2 op ctx).display ∧
    (BmputilError.DeviceDisconnectDuringOperationError u1 op ctx).display =
      (BmputilError.DeviceDisconnectDuringOperationError u2 op ctx).display ∧
    (BmputilError.DeviceReconfigureError o1).display =
      (BmputilError.DeviceReconfigureError o2).display ∧
    (BmputilError.DeviceRebootError o1).display =
      (BmputilError.DeviceRebootError o2).display ∧
    (BmputilError.DeviceSeemsInvalidError a1 it).display =
      (BmputilError.DeviceSeemsInvalidError a2 it).display ∧
    (BmputilError.LibusbError u1).display =
      (BmputilError.LibusbError u2).display ∧
    (BmputilError.DfuLibusbError d1).display =
      (BmputilError.DfuLibusbError d2).display :=
  ⟨rfl, rfl, rfl, rfl, rfl, rfl, rfl, rfl⟩

end Bmputil
